import Mathlib

/-!
Verification of the brain-dump bot (src/app.py) against its specification.

The embedding models:
  * JSON values (`JValue`) as produced by Python's `json.loads`;
  * Python-level exceptions (`PyErr`) via `Except`;
  * the string helpers the code relies on (`str.find`, `str.rfind`,
    slicing with negative indices, `in` substring tests, `str.lower`,
    `"\n".join`, truthiness);
  * `BrainDumpProcessor.process_with_claude` (`processWithClaude`),
    `BrainDumpProcessor.add_to_notion`'s request construction
    (`buildNotionData`) and the `/webhook` handler (`telegramWebhook`).

Library behaviour (Python's `json` module, `str` methods) is modelled on the
fragment the program exercises: the JSON parser covers objects, arrays,
strings with the common escapes, integers and the three literals, and
rejects everything else (floats, \u escapes) as a parse error; `str()` of
list/dict containers is not modelled beyond a placeholder since no code
path in the claims applies it to containers.
-/

/-- A JSON value as returned by Python's `json.loads`: the shape of
`processed_data` throughout src/app.py. Object fields keep insertion
order, as Python dicts do. -/

inductive JValue where
  | null : JValue
  | bool : Bool → JValue
  | num : Int → JValue
  | str : String → JValue
  | arr : List JValue → JValue
  | obj : List (String × JValue) → JValue

/-- The Python exceptions the modelled code can raise. -/

inductive PyErr where
  | typeError : PyErr
  | keyError : PyErr
  | indexError : PyErr
  | attrError : PyErr
  | jsonError : PyErr
  | connectionError : PyErr
  | httpError : PyErr
deriving DecidableEq

/-- Is the value a Python dict? -/

def JValue.isObj : JValue → Bool
  | .obj _ => true
  | _ => false

/-- Python truthiness (`bool(v)`): `None`, `False`, `0`, `""`, `[]`, `{}`
are falsy. -/

def pyTruthy : JValue → Bool
  | .null => false
  | .bool b => b
  | .num n => n != 0
  | .str s => !(s == "")
  | .arr xs => !xs.isEmpty
  | .obj fs => !fs.isEmpty

/-- `str(v)` for the scalar values; Python's container repr is not modelled
(no claim applies `str` to a list or dict). -/

def pyStr : JValue → String
  | .null => "None"
  | .bool true => "True"
  | .bool false => "False"
  | .num n => toString n
  | .str s => s
  | .arr _ => "<arr>"
  | .obj _ => "<obj>"

/-- Splitting helper (fuelled so it is structural): scans for the
separator, accumulating the current piece reversed. Mirrors Python's
non-overlapping `str.split(sep)`. -/

def splitCharsGo (sep : List Char) : Nat → List Char → List Char → List (List Char)
  | 0, rest, acc => [acc.reverse ++ rest]
  | _ + 1, [], acc => [acc.reverse]
  | fuel + 1, c :: cs, acc =>
    if sep.isPrefixOf (c :: cs) then
      acc.reverse :: splitCharsGo sep fuel (List.drop sep.length (c :: cs)) []
    else
      splitCharsGo sep fuel cs (c :: acc)

/-- Python `s.split(sep)` for a non-empty separator. -/

def pySplit (s sep : String) : List String :=
  if sep == "" then [s]
  else (splitCharsGo sep.toList (s.toList.length + 1) s.toList []).map String.mk

/-- Python's substring test `sub in s`. -/

def strContains (s sub : String) : Bool :=
  sub == "" || decide (1 < (pySplit s sub).length)

/-- Python `s.lower()` (per character). -/

def lowerStr (s : String) : String :=
  String.mk (s.toList.map Char.toLower)

/-- Python `s.strip()`. -/

def pyStrip (s : String) : String :=
  String.mk (((s.toList.dropWhile Char.isWhitespace).reverse.dropWhile Char.isWhitespace).reverse)

/-- Python `s.startswith(p)`. -/

def pyStartsWith (s p : String) : Bool :=
  p.toList.isPrefixOf s.toList

/-- Index of the first occurrence of a character, as in `str.find`
(before the `-1` encoding). -/

def firstIdx (c : Char) : List Char → Option Nat
  | [] => none
  | x :: xs => if x == c then some 0 else (firstIdx c xs).map (· + 1)

/-- Index of the last occurrence of a character, as in `str.rfind`
(before the `-1` encoding). -/

def lastIdxList (c : Char) : List Char → Option Nat
  | [] => none
  | x :: xs =>
    match lastIdxList c xs with
    | some j => some (j + 1)
    | none => if x == c then some 0 else none

/-- Python `s.find(c)`: first index or `-1`. -/

def pyFind (s : String) (c : Char) : Int :=
  match firstIdx c s.toList with
  | some i => (i : Int)
  | none => -1

/-- Python `s.rfind(c)`: last index or `-1`. -/

def pyRFind (s : String) (c : Char) : Int :=
  match lastIdxList c s.toList with
  | some j => (j : Int)
  | none => -1

/-- Normalise one bound of a Python slice `s[a:b]`: negative indices count
from the end, then the bound is clamped to `[0, n]`. -/

def pySliceIdx (n : Nat) (i : Int) : Nat :=
  min (if i < 0 then i + n else i).toNat n

/-- Python slice `s[a:b]` (step 1), including negative-index handling:
exactly what `claude_response[start:end]` does at src/app.py line 79. -/

def pySlice (s : String) (a b : Int) : String :=
  let cs := s.toList
  let n := cs.length
  String.mk ((cs.drop (pySliceIdx n a)).take (pySliceIdx n b - pySliceIdx n a))

/-- The escape table of JSON strings (the common escapes; `\u` is not
modelled and is rejected). -/

def escPairs : List (Char × Char) :=
  [('n', '\n'), ('t', '\t'), ('r', '\r'), ('b', '\x08'), ('f', '\x0c'),
   ('"', '"'), ('\\', '\\'), ('/', '/')]

/-- Escape handling inside JSON strings, by lookup in `escPairs`. -/

def escChar (e : Char) : Option Char :=
  (escPairs.find? (fun p => p.1 == e)).map (fun p => p.2)

/-- Parse the body of a JSON string (after the opening quote). -/

def parseStrBody : List Char → Except PyErr (String × List Char)
  | [] => .error .jsonError
  | '"' :: r => .ok ("", r)
  | '\\' :: r =>
    match r with
    | [] => .error .jsonError
    | e :: r2 =>
      match escChar e with
      | none => .error .jsonError
      | some c =>
        match parseStrBody r2 with
        | .ok (s, rest) => .ok (String.mk (c :: s.toList), rest)
        | .error err => .error err
  | c :: r =>
    match parseStrBody r with
    | .ok (s, rest) => .ok (String.mk (c :: s.toList), rest)
    | .error err => .error err

/-- Skip JSON whitespace. -/

def skipWs : List Char → List Char
  | [] => []
  | c :: cs => if c == ' ' || c == '\n' || c == '\t' || c == '\r' then skipWs cs else c :: cs

/-- Expect a fixed literal tail (for `null` / `true` / `false`). -/

def expectLit (lit : List Char) (v : JValue) (cs : List Char) : Except PyErr (JValue × List Char) :=
  if lit.isPrefixOf cs then .ok (v, cs.drop lit.length) else .error .jsonError

/-- Parse an integer literal; floats and exponents are outside the modelled
fragment and rejected. -/

def parseNum (cs : List Char) : Except PyErr (JValue × List Char) :=
  match cs with
  | '-' :: cs1 =>
    match parseNum cs1 with
    | .ok (.num n, rest) => .ok (.num (-n), rest)
    | .ok _ => .error .jsonError
    | .error e => .error e
  | _ =>
    let ds := cs.takeWhile Char.isDigit
    let rest := cs.dropWhile Char.isDigit
    if ds.isEmpty then .error .jsonError
    else
      match rest with
      | '.' :: _ => .error .jsonError
      | 'e' :: _ => .error .jsonError
      | 'E' :: _ => .error .jsonError
      | _ => .ok (.num ((ds.foldl (fun a c => a * 10 + (c.toNat - 48)) 0 : Nat) : Int), rest)

mutual

/-- Fuelled recursive-descent JSON value parser: the model of
`json.loads` used at src/app.py lines 71 and 80. -/
def parseJ : Nat → List Char → Except PyErr (JValue × List Char)
  | 0, _ => .error .jsonError
  | fuel + 1, cs =>
    match skipWs cs with
    | [] => .error .jsonError
    | c :: rest =>
      if c == '{' then
        match parseObjElems fuel rest with
        | .ok (fs, r) => .ok (.obj fs, r)
        | .error e => .error e
      else if c == '[' then
        match parseArrElems fuel rest with
        | .ok (xs, r) => .ok (.arr xs, r)
        | .error e => .error e
      else if c == '"' then
        match parseStrBody rest with
        | .ok (s, r) => .ok (.str s, r)
        | .error e => .error e
      else if c == 'n' then expectLit ['u', 'l', 'l'] .null rest
      else if c == 't' then expectLit ['r', 'u', 'e'] (.bool true) rest
      else if c == 'f' then expectLit ['a', 'l', 's', 'e'] (.bool false) rest
      else if c == '-' || c.isDigit then parseNum (c :: rest)
      else .error .jsonError

/-- Elements of a JSON array (allowing the empty array). -/
def parseArrElems : Nat → List Char → Except PyErr (List JValue × List Char)
  | 0, _ => .error .jsonError
  | fuel + 1, cs =>
    match skipWs cs with
    | ']' :: r => .ok ([], r)
    | cs2 => parseArrRest fuel cs2

/-- One or more comma-separated array elements. -/
def parseArrRest : Nat → List Char → Except PyErr (List JValue × List Char)
  | 0, _ => .error .jsonError
  | fuel + 1, cs =>
    match parseJ fuel cs with
    | .error e => .error e
    | .ok (v, r) =>
      match skipWs r with
      | ',' :: r2 =>
        match parseArrRest fuel r2 with
        | .ok (xs, r3) => .ok (v :: xs, r3)
        | .error e => .error e
      | ']' :: r2 => .ok ([v], r2)
      | _ => .error .jsonError

/-- Fields of a JSON object (allowing the empty object). -/
def parseObjElems : Nat → List Char → Except PyErr (List (String × JValue) × List Char)
  | 0, _ => .error .jsonError
  | fuel + 1, cs =>
    match skipWs cs with
    | '}' :: r => .ok ([], r)
    | cs2 => parseObjRest fuel cs2

/-- One or more comma-separated object fields. -/
def parseObjRest : Nat → List Char → Except PyErr (List (String × JValue) × List Char)
  | 0, _ => .error .jsonError
  | fuel + 1, cs =>
    match skipWs cs with
    | '"' :: r =>
      match parseStrBody r with
      | .error e => .error e
      | .ok (k, r1) =>
        match skipWs r1 with
        | ':' :: r2 =>
          match parseJ fuel r2 with
          | .error e => .error e
          | .ok (v, r3) =>
            match skipWs r3 with
            | ',' :: r4 =>
              match parseObjRest fuel r4 with
              | .ok (fs, r5) => .ok ((k, v) :: fs, r5)
              | .error e => .error e
            | '}' :: r4 => .ok ([(k, v)], r4)
            | _ => .error .jsonError
        | _ => .error .jsonError
    | _ => .error .jsonError

end

/-- `json.loads`: parse a complete JSON document (trailing whitespace
only), else raise. -/

def jsonLoads (s : String) : Except PyErr JValue :=
  match parseJ (3 * s.toList.length + 9) s.toList with
  | .ok (v, rest) => if (skipWs rest).isEmpty then .ok v else .error .jsonError
  | .error e => .error e

/-- Last-binding lookup in an object's field list: Python dicts built by
`json.loads` keep the last value for a duplicated key. -/

def dictGet? (fs : List (String × JValue)) (k : String) : Option JValue :=
  match fs with
  | [] => none
  | (k2, v) :: rest =>
    match dictGet? rest k with
    | some w => some w
    | none => if k2 == k then some v else none

/-- Field lookup on a JSON value (none when not a dict or key absent). -/

def jLookup (v : JValue) (k : String) : Option JValue :=
  match v with
  | .obj fs => dictGet? fs k
  | _ => none

/-- Python subscription `v[k]` with a string key: KeyError when the key is
absent, TypeError when `v` is not a dict. -/

def pyIndexKey (v : JValue) (k : String) : Except PyErr JValue :=
  match v with
  | .obj fs =>
    match dictGet? fs k with
    | some w => .ok w
    | none => .error .keyError
  | _ => .error .typeError

/-- Python subscription `v[i]` with an integer key (used for
`result['choices'][0]`). -/

def pyIndexNat (v : JValue) (i : Nat) : Except PyErr JValue :=
  match v with
  | .arr xs =>
    match xs.get? i with
    | some w => .ok w
    | none => .error .indexError
  | .str s =>
    match s.toList.get? i with
    | some ch => .ok (.str (String.mk [ch]))
    | none => .error .indexError
  | .obj _ => .error .keyError
  | _ => .error .typeError

/-- Python `v.get(k, dflt)`: AttributeError when `v` is not a dict. -/

def pyDictGet (v : JValue) (k : String) (dflt : JValue) : Except PyErr JValue :=
  match v with
  | .obj fs => .ok ((dictGet? fs k).getD dflt)
  | _ => .error .attrError

/-- Equality of a JSON value with a given Python string (for list
membership tests). -/

def jvIsStrEq (key : String) : JValue → Bool
  | .str s => s == key
  | _ => false

/-- Python `key in v`: dict-key membership, list membership, or substring
test; TypeError on non-containers. -/

def pyContains (v : JValue) (key : String) : Except PyErr Bool :=
  match v with
  | .obj fs => .ok (fs.any (fun p => p.1 == key))
  | .arr xs => .ok (xs.any (jvIsStrEq key))
  | .str s => .ok (strContains s key)
  | _ => .error .typeError

/-- The behaviour of the one LLM HTTP round trip as seen by the program:
either `requests.post` raises (connection failure), or a response with a
status code and a body text arrives. -/

inductive LLMOutcome where
  | connError : LLMOutcome
  | response : Nat → String → LLMOutcome

/-- `response.raise_for_status()`: raises for 4xx and 5xx codes. -/

def raiseForStatus (status : Nat) : Except PyErr Unit :=
  if 400 ≤ status ∧ status < 600 then .error .httpError else .ok ()

/-- `result['choices'][0]['message']['content']` (src/app.py line 72). -/

def contentOfBody (bv : JValue) : Except PyErr JValue :=
  match pyIndexKey bv "choices" with
  | .error e => .error e
  | .ok choices =>
    match pyIndexNat choices 0 with
    | .error e => .error e
    | .ok c0 =>
      match pyIndexKey c0 "message" with
      | .error e => .error e
      | .ok msg => pyIndexKey msg "content"

/-- The JSON-extraction slice of src/app.py lines 77-79: from the first
`\x7b` through the last `\x7d` (via `find` / `rfind`, which yield `-1`
when absent, and Python slicing semantics). -/

def extractJsonStr (s : String) : String :=
  pySlice s (pyFind s '{') (pyRFind s '}' + 1)

/-- The trigger words of the inner fallback (src/app.py line 84). -/

def triggerWords : List String := ["need", "buy", "do", "call", "remember"]

/-- `any(word in message.lower() for word in [...])` at src/app.py line 84. -/

def triggered (message : String) : Bool :=
  triggerWords.any (fun w => strContains (lowerStr message) w)

/-- The fallback dict built when JSON extraction or parsing fails
(src/app.py lines 82-91): task-bearing only when a trigger word occurs. -/

def innerFallback (message : String) : JValue :=
  .obj [("tasks", .arr (if triggered message then [.str message] else [])),
        ("ideas", .arr []),
        ("categories", .arr [.str "General"]),
        ("priority", .str "Medium"),
        ("deadline", .null),
        ("content_type", .str "general"),
        ("cleaned_summary", .str message)]

/-- The fallback dict built on any exception in the outer try (src/app.py
lines 93-103): its task list is `[message]` unconditionally. -/

def outerFallback (message : String) : JValue :=
  .obj [("tasks", .arr [.str message]),
        ("ideas", .arr []),
        ("categories", .arr [.str "General"]),
        ("priority", .str "Medium"),
        ("deadline", .null),
        ("content_type", .str "general"),
        ("cleaned_summary", .str message)]

/-- The inner try of src/app.py lines 75-80: `.find` requires the content
to be a string (AttributeError otherwise), then slice and `json.loads`. -/

def innerExtract (content : JValue) : Except PyErr JValue :=
  match content with
  | .str s => jsonLoads (extractJsonStr s)
  | _ => .error .attrError

/-- The body of the outer try of `process_with_claude` (src/app.py lines
67-91): post, raise_for_status, response.json(), drill to the content,
then the inner try with its own fallback. -/

def processAttempt (message : String) (o : LLMOutcome) : Except PyErr JValue :=
  match o with
  | .connError => .error .connectionError
  | .response status body =>
    match raiseForStatus status with
    | .error e => .error e
    | .ok _ =>
      match jsonLoads body with
      | .error e => .error e
      | .ok bv =>
        match contentOfBody bv with
        | .error e => .error e
        | .ok content =>
          match innerExtract content with
          | .ok v => .ok v
          | .error _ => .ok (innerFallback message)

/-- `BrainDumpProcessor.process_with_claude` (src/app.py lines 27-103):
the outer `except Exception` turns any raised error into the outer
fallback dict. -/

def processWithClaude (message : String) (o : LLMOutcome) : JValue :=
  match processAttempt message o with
  | .ok v => v
  | .error _ => outerFallback message

/-- Is an `Except` a success? -/

def isOkE (x : Except PyErr JValue) : Bool :=
  match x with
  | .ok _ => true
  | .error _ => false

/-- Did classification fail (for any of the reasons of §4.2 step 4:
connection error, 4xx/5xx status, unparsable body, missing content, or
failed JSON extraction from the content)? Mirrors the branch structure of
`process_with_claude`. -/

def classificationFails (o : LLMOutcome) : Bool :=
  match o with
  | .connError => true
  | .response status body =>
    match raiseForStatus status with
    | .error _ => true
    | .ok _ =>
      match jsonLoads body with
      | .error _ => true
      | .ok bv =>
        match contentOfBody bv with
        | .error _ => true
        | .ok content => !(isOkE (innerExtract content))

/-- The item sequence of a classification result, as the pipeline consumes
it: `add_to_notion` turns the returned dict into exactly one page per
message, so a dict result is a single classified item. -/

def resultItems (v : JValue) : List JValue :=
  match v with
  | .obj _ => [v]
  | _ => []

/-- Modelled from the spec: the selection rule of §4.2 step 3 with its
fenced-code alternative — when fenced-code delimiters are present, the
content between the first pair of them; otherwise the substring from the
first opening brace to the last closing brace. Used only to compare the
spec's stated rule with the code's `extractJsonStr`. -/

def specSelectedSubstring (s : String) : String :=
  match pySplit s "```" with
  | _ :: mid :: _ :: _ => mid
  | _ => pySlice s (pyFind s '{') (pyRFind s '}' + 1)

/-- Modelled from the spec: the category vocabulary of the Keyword
Classifier (§4.1), a component the spec describes but that is absent from
src/ (the repository ships only the LLM path). -/

inductive KCategory where
  | shopping : KCategory
  | projects : KCategory
  | personal : KCategory
  | todo : KCategory
  | brain_dump : KCategory
deriving DecidableEq

/-- Modelled from the spec: shopping keywords of §4.1 step 2. -/

def shoppingKeywords : List String := ["buy", "shopping", "store", "groceries", "get", "pick up"]

/-- Modelled from the spec: projects keywords of §4.1 step 2. -/

def projectsKeywords : List String := ["project", "work", "deadline", "meeting", "report", "presentation"]

/-- Modelled from the spec: personal keywords of §4.1 step 2. -/

def personalKeywords : List String := ["call", "mom", "dad", "family", "self", "personal", "gym", "doctor", "exercise"]

/-- Modelled from the spec: todo keywords of §4.1 step 2. -/

def todoKeywords : List String := ["todo", "task", "do", "finish", "complete", "pay", "send", "email"]

/-- Modelled from the spec: case-insensitive substring membership of a
candidate item against a keyword set. -/

def matchesAny (item : String) (ws : List String) : Bool :=
  ws.any (fun w => strContains (lowerStr item) w)

/-- Modelled from the spec: fixed-priority category assignment of §4.1
step 2 — shopping, then projects, then personal, then todo, default
brain_dump. -/

def categorize (item : String) : KCategory :=
  if matchesAny item shoppingKeywords then .shopping
  else if matchesAny item projectsKeywords then .projects
  else if matchesAny item personalKeywords then .personal
  else if matchesAny item todoKeywords then .todo
  else .brain_dump

/-- Modelled from the spec: candidate splitting of §4.1 step 1 — the
literal separator " and " first, else ", ", else the whole input. -/

def splitCandidates (text : String) : List String :=
  if strContains text " and " then pySplit text " and "
  else if strContains text ", " then pySplit text ", "
  else [text]

/-- Modelled from the spec: the Keyword Classifier `classify` of §4.1 —
split, trim, drop empties, categorize each candidate; a single brain_dump
fallback item when no candidate survives. -/

def keywordClassify (text : String) : List (String × KCategory) :=
  match ((splitCandidates text).map pyStrip).filter (fun t => !(t == "")) with
  | [] => [(text, KCategory.brain_dump)]
  | cs => cs.map (fun t => (t, categorize t))

/-- Python `x[:100]` on the value feeding the Notion title (src/app.py
lines 120 and 194): slices strings and lists, TypeError otherwise. -/

def pySliceTo100 (v : JValue) : Except PyErr JValue :=
  match v with
  | .str s => .ok (.str (String.mk (s.toList.take 100)))
  | .arr xs => .ok (.arr (xs.take 100))
  | _ => .error .typeError

/-- All elements of a list as Python strings, for `"\n".join`: TypeError
when an element is not a string. -/

def joinableAll : List JValue → Except PyErr (List String)
  | [] => .ok []
  | .str s :: xs =>
    match joinableAll xs with
    | .ok rest => .ok (s :: rest)
    | .error e => .error e
  | _ :: _ => .error .typeError

/-- Python `"\n".join(v)` (src/app.py lines 138, 147, 256, 289): joins a
list of strings, a string (its characters), or a dict (its keys);
TypeError otherwise. -/

def pyJoinNewline (v : JValue) : Except PyErr String :=
  match v with
  | .arr xs =>
    match joinableAll xs with
    | .ok parts => .ok (String.intercalate "\n" parts)
    | .error e => .error e
  | .str s => .ok (String.intercalate "\n" (s.toList.map (fun c => String.mk [c])))
  | .obj fs => .ok (String.intercalate "\n" (fs.map (fun p => p.1)))
  | _ => .error .typeError

/-- Is a value iterable by a Python for-loop (`for cat in ...` at
src/app.py line 154)? -/

def pyIterable (v : JValue) : Bool :=
  match v with
  | .arr _ => true
  | .str _ => true
  | .obj _ => true
  | _ => false

/-- Python `str.title()` on ASCII letters (value unused by any claim; only
its AttributeError on non-strings matters, src/app.py line 159). -/

def pyTitleChars : List Char → Bool → List Char
  | [], _ => []
  | c :: cs, prevAlpha =>
    (if c.isAlpha then (if prevAlpha then c.toLower else c.toUpper) else c)
      :: pyTitleChars cs c.isAlpha

/-- Python `v.title()`: AttributeError when `v` is not a string. -/

def pyTitleMethod (v : JValue) : Except PyErr String :=
  match v with
  | .str s => .ok (String.mk (pyTitleChars s.toList false))
  | _ => .error .attrError

/-- The parts of the Notion page-creation request that the claims are
about: the parent destination, the title content, and the children blocks
(type, text content). -/

structure NotionData where
  parent : Option String
  title : JValue
  children : List (String × String)

/-- The routing decision of the write step: `add_to_notion` sends every
page to the single configured `NOTION_DATABASE_ID` parent (src/app.py
lines 186-189), whatever the classified category is. -/

def destination_for (notionDatabaseId : Option String) (_category : String) : Option String :=
  notionDatabaseId

/-- The request construction of `BrainDumpProcessor.add_to_notion`
(src/app.py lines 105-311), evaluating the throwing subexpressions in
source order (the dead `properties` dict of lines 115-184 is built before
`data`, so its slices, joins, iteration and `.title()` call can raise
first), then assembling the `data` payload: parent page, title slice, the
Original Message heading and paragraph, conditional Tasks and Ideas
blocks, and the metadata paragraph with the current timestamp. -/

def buildNotionData (notionDatabaseId : Option String) (processed : JValue)
    (original : String) (now : String) : Except PyErr NotionData :=
  match pyDictGet processed "cleaned_summary" (.str original) with
  | .error e => .error e
  | .ok rawTitle =>
    match pySliceTo100 rawTitle with
    | .error e => .error e
    | .ok titleV =>
      match pyDictGet processed "tasks" (.arr []) with
      | .error e => .error e
      | .ok tasksV =>
        match pyJoinNewline tasksV with
        | .error e => .error e
        | .ok tasksJoined =>
          match pyDictGet processed "ideas" (.arr []) with
          | .error e => .error e
          | .ok ideasV =>
            match pyJoinNewline ideasV with
            | .error e => .error e
            | .ok ideasJoined =>
              match pyDictGet processed "categories" (.arr []) with
              | .error e => .error e
              | .ok catsV =>
                if pyIterable catsV then
                  match pyDictGet processed "content_type" (.str "general") with
                  | .error e => .error e
                  | .ok ctV =>
                    match pyTitleMethod ctV with
                    | .error e => .error e
                    | .ok _ =>
                      match pyDictGet processed "priority" (.str "Medium") with
                      | .error e => .error e
                      | .ok priV =>
                        .ok ⟨notionDatabaseId, titleV,
                          [("heading_2", "Original Message"), ("paragraph", original)]
                          ++ (if pyTruthy tasksV then
                                [("heading_3", "Tasks"), ("bulleted_list_item", tasksJoined)]
                              else [])
                          ++ (if pyTruthy ideasV then
                                [("heading_3", "Ideas"), ("paragraph", ideasJoined)]
                              else [])
                          ++ [("paragraph",
                                "Priority: " ++ pyStr priV ++ " | Type: " ++ pyStr ctV
                                  ++ " | Created: " ++ now)]⟩
                else .error .typeError

/-- The environment configuration read at src/app.py lines 16-20 (the two
variables the webhook handler's observable behaviour depends on). -/

structure Config where
  authorizedChatId : Option String
  notionDatabaseId : Option String

/-- Python truthiness of an environment variable (`if AUTHORIZED_CHAT_ID`
at src/app.py line 344): unset (`None`) and empty string are falsy. -/

def truthyEnv : Option String → Bool
  | none => false
  | some s => !(s == "")

/-- The observable outcome of one webhook invocation: the HTTP status and
status body returned to the transport, plus the effect trace — texts sent
to the classifier, write requests sent to the document store, and
messages sent back to the sender's chat. -/

structure WebhookResult where
  httpStatus : Nat
  bodyStatus : String
  classifyCalls : List String
  notionWrites : List NotionData
  sends : List (String × String)

/-- The `/webhook` handler `telegram_webhook` (src/app.py lines 330-377):
payload checks, sender authorization, text checks, then classification,
the document-store write and the confirmation message; any exception is
caught and answered with a 500 "error" response. `llm` fixes the LLM
endpoint's behaviour and `notionOk` whether the Notion write call returns
2xx. -/

def telegramWebhook (cfg : Config) (payload : JValue) (llm : LLMOutcome)
    (notionOk : Bool) (now : String) : WebhookResult :=
  match pyContains payload "message" with
  | .error _ => ⟨500, "error", [], [], []⟩
  | .ok false => ⟨200, "ignored", [], [], []⟩
  | .ok true =>
    match pyIndexKey payload "message" with
    | .error _ => ⟨500, "error", [], [], []⟩
    | .ok message =>
      match pyIndexKey message "chat" with
      | .error _ => ⟨500, "error", [], [], []⟩
      | .ok chat =>
        match pyIndexKey chat "id" with
        | .error _ => ⟨500, "error", [], [], []⟩
        | .ok idv =>
          if truthyEnv cfg.authorizedChatId
              && pyStr idv != cfg.authorizedChatId.getD "" then
            ⟨200, "unauthorized", [], [], []⟩
          else
            match pyDictGet message "text" (.str "") with
            | .error _ => ⟨500, "error", [], [], []⟩
            | .ok textV =>
              if pyTruthy textV = false then ⟨200, "no_text", [], [], []⟩
              else
                match textV with
                | .str text =>
                  if pyStartsWith text "/" then ⟨200, "command_ignored", [], [], []⟩
                  else
                    match buildNotionData cfg.notionDatabaseId
                        (processWithClaude text llm) text now with
                    | .error _ => ⟨500, "error", [text], [], []⟩
                    | .ok nd =>
                      if notionOk then
                        match pyDictGet (processWithClaude text llm)
                            "content_type" (.str "general") with
                        | .error _ => ⟨500, "error", [text], [nd], []⟩
                        | .ok ctV =>
                          ⟨200, "success", [text], [nd],
                            [(pyStr idv,
                              "✅ Brain dump processed and added to Notion! (Type: "
                                ++ pyStr ctV ++ ")")]⟩
                      else
                        ⟨500, "notion_error", [text], [nd],
                          [(pyStr idv, "❌ Failed to add to Notion. Check logs.")]⟩
                | _ => ⟨500, "error", [], [], []⟩

theorem pySliceIdx_natCast (n i : Nat) : pySliceIdx n ((i : Nat) : Int) = min i n := by
  unfold pySliceIdx
  split
  · omega
  · omega

theorem pySliceIdx_neg_one (n : Nat) : pySliceIdx n (-1) = n - 1 := by
  unfold pySliceIdx
  split
  · omega
  · omega

theorem pySliceIdx_le (n : Nat) (i : Int) : pySliceIdx n i ≤ n := by
  unfold pySliceIdx
  exact Nat.min_le_right _ _

theorem firstIdx_spec (c : Char) (l : List Char) (i : Nat)
    (h : firstIdx c l = some i) : i < l.length ∧ (l.drop i).head? = some c := by
  induction l generalizing i with
  | nil => simp [firstIdx] at h
  | cons x xs ih =>
    unfold firstIdx at h
    by_cases hx : x == c
    · simp [hx] at h
      subst h
      simp [eq_of_beq hx]
    · simp [hx] at h
      obtain ⟨j, hj, rfl⟩ := h
      obtain ⟨h1, h2⟩ := ih j hj
      refine ⟨?_, by simpa using h2⟩
      simp only [List.length_cons]
      omega

theorem lastIdx_spec (c : Char) (l : List Char) (j : Nat)
    (h : lastIdxList c l = some j) : j < l.length ∧ (l.drop j).head? = some c := by
  induction l generalizing j with
  | nil => simp [lastIdxList] at h
  | cons x xs ih =>
    unfold lastIdxList at h
    cases htail : lastIdxList c xs with
    | some j2 =>
      rw [htail] at h
      cases h
      obtain ⟨h1, h2⟩ := ih j2 htail
      refine ⟨?_, by simpa using h2⟩
      simp only [List.length_cons]
      omega
    | none =>
      rw [htail] at h
      by_cases hx : x == c
      · simp [hx] at h
        subst h
        simp [eq_of_beq hx]
      · simp [hx] at h

theorem parseJ_brace_obj (fuel : Nat) (r : List Char) (v : JValue) (rest : List Char)
    (h : parseJ fuel ('{' :: r) = .ok (v, rest)) : ∃ fs, v = JValue.obj fs := by
  cases fuel with
  | zero => simp [parseJ] at h
  | succ f =>
    have hws : skipWs ('{' :: r) = '{' :: r := by simp [skipWs]
    rw [parseJ, hws] at h
    simp only [] at h
    cases hobj : parseObjElems f r with
    | ok p =>
      rw [hobj] at h
      simp at h
      exact ⟨p.1, h.1.symm⟩
    | error e =>
      rw [hobj] at h
      simp at h

theorem jsonLoads_head_brace_obj (l : List Char) (v : JValue)
    (hl : l.head? = some '{') (h : jsonLoads (String.mk l) = .ok v) :
    ∃ fs, v = JValue.obj fs := by
  cases l with
  | nil => simp at hl
  | cons c r =>
    simp at hl
    subst hl
    unfold jsonLoads at h
    cases hp : parseJ (3 * (String.mk ('{' :: r)).toList.length + 9) ((String.mk ('{' :: r)).toList) with
    | ok p =>
      rw [hp] at h
      have hobj := parseJ_brace_obj _ r p.1 p.2 (by simpa using hp)
      simp only [] at h
      split at h
      · cases h
        exact hobj
      · cases h
    | error e =>
      rw [hp] at h
      cases h

theorem jsonLoads_nil_err : jsonLoads (String.mk []) = .error .jsonError := rfl

theorem jsonLoads_rbrace_err : jsonLoads (String.mk ['}']) = .error .jsonError := rfl

theorem head?_take (k : Nat) (l : List Char) (hk : k ≠ 0) :
    (l.take k).head? = l.head? := by
  cases k with
  | zero => omega
  | succ k2 => cases l <;> simp

/-- A successful `json.loads` of the extracted slice is always a JSON
object: the slice starts at the first `\x7b` when one exists, and
otherwise is empty or the single closing brace, which never parses. -/
theorem extract_parse_obj (s : String) (v : JValue)
    (h : jsonLoads (extractJsonStr s) = .ok v) : ∃ fs, v = JValue.obj fs := by
  unfold extractJsonStr pySlice at h
  simp only [] at h
  cases hfi : firstIdx '{' s.toList with
  | some i =>
    obtain ⟨hilt, hihd⟩ := firstIdx_spec '{' s.toList i hfi
    rw [show pyFind s '{' = ((i : Nat) : Int) by unfold pyFind; rw [hfi]] at h
    rw [pySliceIdx_natCast] at h
    rw [Nat.min_eq_left (Nat.le_of_lt hilt)] at h
    set k := pySliceIdx s.toList.length (pyRFind s '}' + 1) - i with hkdef
    by_cases hk : k = 0
    · rw [hk] at h
      simp only [List.take_zero] at h
      exact absurd h (by rw [jsonLoads_nil_err]; simp)
    · apply jsonLoads_head_brace_obj _ v _ h
      rw [head?_take k _ hk]
      exact hihd
  | none =>
    rw [show pyFind s '{' = -1 by unfold pyFind; rw [hfi]] at h
    rw [pySliceIdx_neg_one] at h
    set n := s.toList.length with hndef
    cases hli : lastIdxList '}' s.toList with
    | none =>
      rw [show pyRFind s '}' = -1 by unfold pyRFind; rw [hli]] at h
      have hb : pySliceIdx n (-1 + 1) = 0 := by
        show pySliceIdx n 0 = 0
        have := pySliceIdx_natCast n 0
        simpa using this
      rw [hb] at h
      simp only [Nat.zero_sub, List.take_zero] at h
      exact absurd h (by rw [jsonLoads_nil_err]; simp)
    | some j =>
      obtain ⟨hjlt, hjhd⟩ := lastIdx_spec '}' s.toList j hli
      rw [show pyRFind s '}' = ((j : Nat) : Int) by unfold pyRFind; rw [hli]] at h
      have hcast : ((j : Nat) : Int) + 1 = (((j + 1 : Nat)) : Int) := by omega
      rw [hcast, pySliceIdx_natCast] at h
      rw [Nat.min_eq_left (by omega : j + 1 ≤ n)] at h
      by_cases hj : j + 1 ≤ n - 1
      · rw [show j + 1 - (n - 1) = 0 by omega] at h
        simp only [List.take_zero] at h
        exact absurd h (by rw [jsonLoads_nil_err]; simp)
      · have hjn : j = n - 1 := by omega
        have hn1 : 1 ≤ n := by omega
        have hlen : (s.toList.drop (n - 1)).length = 1 := by
          rw [List.length_drop]
          omega
        have hdrop : s.toList.drop (n - 1) = ['}'] := by
          cases hd : s.toList.drop (n - 1) with
          | nil => rw [hd] at hlen; simp at hlen
          | cons x t =>
            rw [hd] at hlen
            simp at hlen
            rw [hjn, hd] at hjhd
            simp at hjhd
            rw [hjhd, hlen]
        rw [hdrop] at h
        rw [show j + 1 - (n - 1) = 1 by omega] at h
        simp only [List.take_succ_cons, List.take_zero] at h
        exact absurd h (by rw [jsonLoads_rbrace_err]; simp)

/-- `process_with_claude` always returns a dict: a successful parse is an
object by `extract_parse_obj`, and every failure path substitutes one of
the two fallback dicts. -/
theorem processWithClaude_obj (m : String) (o : LLMOutcome) :
    ∃ fs, processWithClaude m o = JValue.obj fs := by
  unfold processWithClaude
  cases hA : processAttempt m o with
  | error e => exact ⟨_, rfl⟩
  | ok v =>
    simp only []
    cases o with
    | connError => simp [processAttempt] at hA
    | response status body =>
      simp only [processAttempt] at hA
      split at hA
      · cases hA
      · split at hA
        · cases hA
        · split at hA
          · cases hA
          · rename_i content hcontent
            split at hA
            · next w hie =>
              cases hA
              cases content with
              | str s2 => exact extract_parse_obj s2 v (by simpa [innerExtract] using hie)
              | null => simp [innerExtract] at hie
              | bool b => simp [innerExtract] at hie
              | num n => simp [innerExtract] at hie
              | arr xs => simp [innerExtract] at hie
              | obj fs => simp [innerExtract] at hie
            · cases hA
              exact ⟨_, rfl⟩

theorem processAttempt_conn (m : String) :
    processAttempt m .connError = .error .connectionError := rfl

theorem processAttempt_httpErr (m : String) (st : Nat) (body : String) (e : PyErr)
    (h : raiseForStatus st = .error e) :
    processAttempt m (.response st body) = .error e := by
  simp only [processAttempt]
  rw [h]

theorem processAttempt_badjson (m : String) (st : Nat) (body : String) (e : PyErr)
    (hok : raiseForStatus st = .ok ()) (h : jsonLoads body = .error e) :
    processAttempt m (.response st body) = .error e := by
  simp only [processAttempt]
  rw [hok, h]

theorem processAttempt_badbody (m : String) (st : Nat) (body : String) (bv : JValue) (e : PyErr)
    (hok : raiseForStatus st = .ok ()) (hj : jsonLoads body = .ok bv)
    (hc : contentOfBody bv = .error e) :
    processAttempt m (.response st body) = .error e := by
  simp only [processAttempt]
  simp only [hok, hj, hc]

theorem processAttempt_innerFail (m : String) (st : Nat) (body : String) (bv content : JValue)
    (e : PyErr) (hok : raiseForStatus st = .ok ()) (hj : jsonLoads body = .ok bv)
    (hc : contentOfBody bv = .ok content) (hi : innerExtract content = .error e) :
    processAttempt m (.response st body) = .ok (innerFallback m) := by
  simp only [processAttempt]
  simp only [hok, hj, hc, hi]

theorem processAttempt_parsed (m : String) (st : Nat) (body : String) (bv content v : JValue)
    (hok : raiseForStatus st = .ok ()) (hj : jsonLoads body = .ok bv)
    (hc : contentOfBody bv = .ok content) (hi : innerExtract content = .ok v) :
    processAttempt m (.response st body) = .ok v := by
  simp only [processAttempt]
  simp only [hok, hj, hc, hi]

theorem processWithClaude_of_attempt_error (m : String) (o : LLMOutcome) (e : PyErr)
    (h : processAttempt m o = .error e) : processWithClaude m o = outerFallback m := by
  unfold processWithClaude
  rw [h]

theorem processWithClaude_of_attempt_ok (m : String) (o : LLMOutcome) (v : JValue)
    (h : processAttempt m o = .ok v) : processWithClaude m o = v := by
  unfold processWithClaude
  rw [h]

/-- Any failing classification yields one of the two fallback dicts. -/
theorem fails_imp_fallback (m : String) (o : LLMOutcome)
    (hf : classificationFails o = true) :
    processWithClaude m o = outerFallback m ∨ processWithClaude m o = innerFallback m := by
  cases o with
  | connError => exact Or.inl (processWithClaude_of_attempt_error m _ _ (processAttempt_conn m))
  | response st body =>
    simp only [classificationFails] at hf
    split at hf
    · next e he =>
      exact Or.inl (processWithClaude_of_attempt_error m _ e (processAttempt_httpErr m st body e he))
    · next u hok =>
      cases u
      split at hf
      · next e he =>
        exact Or.inl (processWithClaude_of_attempt_error m _ e (processAttempt_badjson m st body e hok he))
      · next bv hbv =>
        split at hf
        · next e he =>
          exact Or.inl (processWithClaude_of_attempt_error m _ e
            (processAttempt_badbody m st body bv e hok hbv he))
        · next content hcontent =>
          cases hie : innerExtract content with
          | ok w => rw [hie] at hf; simp [isOkE] at hf
          | error e =>
            exact Or.inr (processWithClaude_of_attempt_ok m _ _
              (processAttempt_innerFail m st body bv content e hok hbv hcontent hie))

/-- C1: for every input message and every behaviour of the remote LLM
endpoint (connection error, non-2xx status, or arbitrary response text),
`process_with_claude` never raises past its own boundary: it always
returns a classification dict, and any error raised inside the outer try
is converted into the synthesized fallback dict. -/
theorem c1_never_raises (m : String) (o : LLMOutcome) :
    (processWithClaude m o).isObj = true ∧
    (∀ e, processAttempt m o = .error e → processWithClaude m o = outerFallback m) := by
  constructor
  · obtain ⟨fs, hfs⟩ := processWithClaude_obj m o
    rw [hfs]
    rfl
  · intro e he
    exact processWithClaude_of_attempt_error m o e he

theorem c1_never_raises_witness :
    (processWithClaude "call mom" LLMOutcome.connError).isObj = true ∧
    processWithClaude "call mom" LLMOutcome.connError = outerFallback "call mom" :=
  ⟨(c1_never_raises "call mom" LLMOutcome.connError).1,
   (c1_never_raises "call mom" LLMOutcome.connError).2 PyErr.connectionError rfl⟩

/-- C3: for every string input (including empty and whitespace-only ones)
and every LLM behaviour, the classification result contains at least one
classified item; and whenever classification fails the result is a single
fallback dict wrapping the entire original text (its `cleaned_summary` is
the full original message). -/
theorem c3_result_nonempty (m : String) (o : LLMOutcome) :
    1 ≤ (resultItems (processWithClaude m o)).length ∧
    (classificationFails o = true →
      (processWithClaude m o = outerFallback m ∨ processWithClaude m o = innerFallback m) ∧
      jLookup (processWithClaude m o) "cleaned_summary" = some (JValue.str m)) := by
  constructor
  · obtain ⟨fs, hfs⟩ := processWithClaude_obj m o
    rw [hfs]
    simp [resultItems]
  · intro hf
    refine ⟨fails_imp_fallback m o hf, ?_⟩
    cases fails_imp_fallback m o hf with
    | inl h => rw [h]; rfl
    | inr h => rw [h]; rfl

theorem c3_result_nonempty_witness :
    1 ≤ (resultItems (processWithClaude "" LLMOutcome.connError)).length ∧
    (processWithClaude "" LLMOutcome.connError = outerFallback "" ∨
      processWithClaude "" LLMOutcome.connError = innerFallback "") ∧
    jLookup (processWithClaude "" LLMOutcome.connError) "cleaned_summary" = some (JValue.str "") :=
  ⟨(c3_result_nonempty "" LLMOutcome.connError).1,
   (c3_result_nonempty "" LLMOutcome.connError).2 rfl⟩

/-- C2 (counterexample): on a network error with a message containing no
trigger word, the code's fallback task list is `[message]`, not the empty
list the claim requires for non-trigger messages. -/
theorem c2_counterexample :
    triggered "hello" = false ∧
    jLookup (processWithClaude "hello" LLMOutcome.connError) "tasks" =
      some (JValue.arr [JValue.str "hello"]) ∧
    jLookup (processWithClaude "hello" LLMOutcome.connError) "tasks" ≠
      some (JValue.arr []) := by
  refine ⟨by decide, rfl, ?_⟩
  intro h
  rw [show jLookup (processWithClaude "hello" LLMOutcome.connError) "tasks" =
        some (JValue.arr [JValue.str "hello"]) from rfl] at h
  simp at h

/-- C2 (amended): extraction/parse failures produce the trigger-word
conditional fallback; network errors, non-2xx responses and malformed
bodies produce the unconditional task-bearing fallback; both carry the
full original text as `cleaned_summary` and content_type `general`. -/
theorem c2_fallback_policy (m body : String) (st : Nat) (bv content : JValue) (e : PyErr) :
    (processWithClaude m LLMOutcome.connError = outerFallback m) ∧
    (raiseForStatus st = .error e →
      processWithClaude m (.response st body) = outerFallback m) ∧
    (raiseForStatus st = .ok () → jsonLoads body = .error e →
      processWithClaude m (.response st body) = outerFallback m) ∧
    (raiseForStatus st = .ok () → jsonLoads body = .ok bv → contentOfBody bv = .error e →
      processWithClaude m (.response st body) = outerFallback m) ∧
    (raiseForStatus st = .ok () → jsonLoads body = .ok bv → contentOfBody bv = .ok content →
      innerExtract content = .error e →
      processWithClaude m (.response st body) = innerFallback m) ∧
    jLookup (outerFallback m) "tasks" = some (JValue.arr [JValue.str m]) ∧
    jLookup (outerFallback m) "content_type" = some (JValue.str "general") ∧
    jLookup (outerFallback m) "cleaned_summary" = some (JValue.str m) ∧
    jLookup (innerFallback m) "tasks" =
      some (JValue.arr (if triggered m then [JValue.str m] else [])) ∧
    jLookup (innerFallback m) "content_type" = some (JValue.str "general") ∧
    jLookup (innerFallback m) "cleaned_summary" = some (JValue.str m) := by
  refine ⟨?_, ?_, ?_, ?_, ?_, rfl, rfl, rfl, rfl, rfl, rfl⟩
  · exact processWithClaude_of_attempt_error m _ _ (processAttempt_conn m)
  · intro h
    exact processWithClaude_of_attempt_error m _ e (processAttempt_httpErr m st body e h)
  · intro hok hj
    exact processWithClaude_of_attempt_error m _ e (processAttempt_badjson m st body e hok hj)
  · intro hok hj hc
    exact processWithClaude_of_attempt_error m _ e (processAttempt_badbody m st body bv e hok hj hc)
  · intro hok hj hc hi
    exact processWithClaude_of_attempt_ok m _ _
      (processAttempt_innerFail m st body bv content e hok hj hc hi)

theorem c2_fallback_policy_witness :
    processWithClaude "hello" (LLMOutcome.response 500 "ignored") = outerFallback "hello" ∧
    processWithClaude "buy milk"
      (LLMOutcome.response 200
        "\x7b\"choices\": [\x7b\"message\": \x7b\"content\": \"no json here\"\x7d\x7d]\x7d") =
      innerFallback "buy milk" ∧
    jLookup (innerFallback "buy milk") "tasks" = some (JValue.arr [JValue.str "buy milk"]) :=
  ⟨(c2_fallback_policy "hello" "ignored" 500 JValue.null JValue.null PyErr.httpError).2.1 rfl,
   (c2_fallback_policy "buy milk"
      "\x7b\"choices\": [\x7b\"message\": \x7b\"content\": \"no json here\"\x7d\x7d]\x7d" 200
      (JValue.obj [("choices", JValue.arr [JValue.obj [("message",
        JValue.obj [("content", JValue.str "no json here")])]])])
      (JValue.str "no json here") PyErr.jsonError).2.2.2.2.1 rfl rfl rfl rfl,
   rfl⟩

/-- C5 (counterexample): on a fenced response the code does not select the
content between the fence delimiters; it still selects from the first
opening brace to the last closing brace. -/
theorem c5_counterexample :
    extractJsonStr "```json\n\x7b\"a\": 1\x7d\n```" ≠
      specSelectedSubstring "```json\n\x7b\"a\": 1\x7d\n```" ∧
    extractJsonStr "```json\n\x7b\"a\": 1\x7d\n```" = "\x7b\"a\": 1\x7d" ∧
    specSelectedSubstring "```json\n\x7b\"a\": 1\x7d\n```" = "json\n\x7b\"a\": 1\x7d\n" := by
  refine ⟨by decide, rfl, rfl⟩

/-- C5 (amended): the extraction always selects the substring from the
first opening brace through the last closing brace (via `find`/`rfind`
and a Python slice), even when fenced-code delimiters are present, and on
a successful parse the parsed object is the value `process_with_claude`
returns. -/
theorem c5_extraction (m body content : String) (st : Nat) (bv v : JValue) :
    (raiseForStatus st = .ok () → jsonLoads body = .ok bv →
      contentOfBody bv = .ok (.str content) → jsonLoads (extractJsonStr content) = .ok v →
      processWithClaude m (.response st body) = v) ∧
    extractJsonStr content = pySlice content (pyFind content '{') (pyRFind content '}' + 1) := by
  constructor
  · intro h1 h2 h3 h4
    exact processWithClaude_of_attempt_ok m _ v
      (processAttempt_parsed m st body bv (.str content) v h1 h2 h3
        (by simpa [innerExtract] using h4))
  · rfl

theorem c5_extraction_witness :
    processWithClaude "msg"
      (LLMOutcome.response 200
        "\x7b\"choices\": [\x7b\"message\": \x7b\"content\": \"```json\\n\x7b\\\"a\\\": 1\x7d\\n```\"\x7d\x7d]\x7d") =
      JValue.obj [("a", JValue.num 1)] :=
  (c5_extraction "msg"
    "\x7b\"choices\": [\x7b\"message\": \x7b\"content\": \"```json\\n\x7b\\\"a\\\": 1\x7d\\n```\"\x7d\x7d]\x7d"
    "```json\n\x7b\"a\": 1\x7d\n```" 200
    (JValue.obj [("choices", JValue.arr [JValue.obj [("message",
      JValue.obj [("content", JValue.str "```json\n\x7b\"a\": 1\x7d\n```")])]])])
    (JValue.obj [("a", JValue.num 1)])).1 rfl rfl rfl rfl

/-- C6: the Keyword Classifier is a pure function that splits on the
literal separator " and " (else ", ", else the whole input) and assigns
categories by fixed-priority keyword matching; "buy milk and call mom"
yields exactly "buy milk" (shopping) and "call mom" (personal). -/
theorem c6_keyword_classifier :
    (∀ t, strContains t " and " = true → splitCandidates t = pySplit t " and ") ∧
    (∀ t, strContains t " and " = false → strContains t ", " = true →
      splitCandidates t = pySplit t ", ") ∧
    (∀ t, strContains t " and " = false → strContains t ", " = false →
      splitCandidates t = [t]) ∧
    keywordClassify "buy milk and call mom" =
      [("buy milk", KCategory.shopping), ("call mom", KCategory.personal)] := by
  refine ⟨?_, ?_, ?_, rfl⟩
  · intro t h
    simp [splitCandidates, h]
  · intro t h1 h2
    simp [splitCandidates, h1, h2]
  · intro t h1 h2
    simp [splitCandidates, h1, h2]

theorem c6_keyword_classifier_witness :
    splitCandidates "buy milk and call mom" = pySplit "buy milk and call mom" " and " ∧
    keywordClassify "buy milk and call mom" =
      [("buy milk", KCategory.shopping), ("call mom", KCategory.personal)] :=
  ⟨c6_keyword_classifier.1 "buy milk and call mom" rfl,
   c6_keyword_classifier.2.2.2⟩

/-- C8: the routing decision is a pure lookup that is constant across
categories — every category (recognized or not) maps to the single
configured default destination, which is exactly the parent that any
successfully built write request carries. -/
theorem c8_routing (db : Option String) (cat1 cat2 : String) (processed : JValue)
    (original now : String) (d : NotionData) :
    destination_for db cat1 = destination_for db cat2 ∧
    destination_for db cat1 = db ∧
    (buildNotionData db processed original now = .ok d → d.parent = destination_for db cat1) := by
  refine ⟨rfl, rfl, ?_⟩
  intro h
  unfold buildNotionData at h
  repeat' split at h
  all_goals cases h
  all_goals rfl

theorem c8_routing_witness :
    destination_for (some "db123") "todo" = destination_for (some "db123") "unknownCategory" ∧
    (⟨some "db123", JValue.str "x",
      [("heading_2", "Original Message"), ("paragraph", "orig"),
       ("paragraph", "Priority: Medium | Type: general | Created: 2025-01-01")]⟩ :
      NotionData).parent = destination_for (some "db123") "todo" :=
  ⟨(c8_routing (some "db123") "todo" "unknownCategory" (JValue.obj [("cleaned_summary", JValue.str "x")])
      "orig" "2025-01-01" ⟨some "db123", JValue.str "x",
        [("heading_2", "Original Message"), ("paragraph", "orig"),
         ("paragraph", "Priority: Medium | Type: general | Created: 2025-01-01")]⟩).1,
   (c8_routing (some "db123") "todo" "unknownCategory" (JValue.obj [("cleaned_summary", JValue.str "x")])
      "orig" "2025-01-01" ⟨some "db123", JValue.str "x",
        [("heading_2", "Original Message"), ("paragraph", "orig"),
         ("paragraph", "Priority: Medium | Type: general | Created: 2025-01-01")]⟩).2.2 rfl⟩

/-- C10: the page title is the cleaned summary (or, when that key is
absent, the original message — both cases are the `get` with default)
truncated to its first 100 characters, while the Original Message
paragraph (the second child block) carries the full untruncated original
message. -/
theorem c10_title_truncation (db : Option String) (processed : JValue)
    (original now : String) (d : NotionData) (s : String)
    (h : buildNotionData db processed original now = .ok d)
    (hs : pyDictGet processed "cleaned_summary" (.str original) = .ok (.str s)) :
    d.title = .str (String.mk (s.toList.take 100)) ∧
    (∀ t, d.title = .str t → t.toList.length ≤ 100) ∧
    d.children.get? 1 = some ("paragraph", original) := by
  unfold buildNotionData at h
  rw [hs] at h
  simp only [pySliceTo100] at h
  repeat' split at h
  all_goals cases h
  all_goals refine ⟨rfl, ?_, rfl⟩
  all_goals intro t ht
  all_goals injection ht with ht2
  all_goals subst ht2
  all_goals simp

theorem c10_title_truncation_witness :
    (⟨some "db", JValue.str (String.mk ((List.replicate 105 'a').take 100)),
      [("heading_2", "Original Message"), ("paragraph", "orig"),
       ("paragraph", "Priority: Medium | Type: general | Created: t0")]⟩ :
      NotionData).title =
      JValue.str (String.mk ((String.mk (List.replicate 105 'a')).toList.take 100)) ∧
    (String.mk ((List.replicate 105 'a').take 100)).toList.length ≤ 100 ∧
    (⟨some "db", JValue.str (String.mk ((List.replicate 105 'a').take 100)),
      [("heading_2", "Original Message"), ("paragraph", "orig"),
       ("paragraph", "Priority: Medium | Type: general | Created: t0")]⟩ :
      NotionData).children.get? 1 = some ("paragraph", "orig") := by
  have h := c10_title_truncation (some "db")
    (JValue.obj [("cleaned_summary", JValue.str (String.mk (List.replicate 105 'a')))])
    "orig" "t0"
    ⟨some "db", JValue.str (String.mk ((List.replicate 105 'a').take 100)),
      [("heading_2", "Original Message"), ("paragraph", "orig"),
       ("paragraph", "Priority: Medium | Type: general | Created: t0")]⟩
    (String.mk (List.replicate 105 'a')) rfl rfl
  exact ⟨h.1, h.2.1 _ h.1, h.2.2⟩

theorem dictGet?_some_any (fs : List (String × JValue)) (k : String) (w : JValue)
    (h : dictGet? fs k = some w) : fs.any (fun p => p.1 == k) = true := by
  induction fs with
  | nil => simp [dictGet?] at h
  | cons p rest ih =>
    obtain ⟨k2, v2⟩ := p
    unfold dictGet? at h
    cases hr : dictGet? rest k with
    | some w2 =>
      rw [hr] at h
      cases h
      rw [List.any_cons, ih hr, Bool.or_true]
    | none =>
      rw [hr] at h
      by_cases hk : k2 == k
      · rw [List.any_cons, hk, Bool.true_or]
      · simp [hk] at h

theorem pyIndexKey_contains (v : JValue) (k : String) (w : JValue)
    (h : pyIndexKey v k = .ok w) : pyContains v k = .ok true := by
  cases v with
  | obj fs =>
    simp only [pyIndexKey] at h
    cases hd : dictGet? fs k with
    | some w2 =>
      simp [pyContains, dictGet?_some_any fs k w2 hd]
    | none => rw [hd] at h; cases h
  | null => cases h
  | bool b => cases h
  | num n => cases h
  | str s => cases h
  | arr xs => cases h

/-- C4 (counterexample): with an authorized id configured and a payload
from a different chat id, the handler sends no message at all to the
sender's chat (the denial is only the HTTP body returned to the
transport). -/
theorem c4_counterexample :
    (telegramWebhook ⟨some "111", some "db"⟩
      (JValue.obj [("message", JValue.obj [("chat", JValue.obj [("id", JValue.num 222)]),
        ("text", JValue.str "hi")])])
      LLMOutcome.connError true "t0").sends = [] ∧
    (telegramWebhook ⟨some "111", some "db"⟩
      (JValue.obj [("message", JValue.obj [("chat", JValue.obj [("id", JValue.num 222)]),
        ("text", JValue.str "hi")])])
      LLMOutcome.connError true "t0").bodyStatus = "unauthorized" :=
  ⟨rfl, rfl⟩

/-- C4 (amended): for an unauthorized chat id the handler performs zero
classification calls, zero document-store writes and zero chat messages,
and returns the fixed "unauthorized" body with HTTP 200 to the
transport. -/
theorem c4_unauthorized (cfg : Config) (payload message chat idv : JValue)
    (llm : LLMOutcome) (nOk : Bool) (now a : String)
    (ha : cfg.authorizedChatId = some a) (hne : a ≠ "")
    (h1 : pyContains payload "message" = .ok true)
    (h2 : pyIndexKey payload "message" = .ok message)
    (h3 : pyIndexKey message "chat" = .ok chat)
    (h4 : pyIndexKey chat "id" = .ok idv)
    (h5 : pyStr idv ≠ a) :
    telegramWebhook cfg payload llm nOk now = ⟨200, "unauthorized", [], [], []⟩ := by
  have hcond : (truthyEnv cfg.authorizedChatId
      && (pyStr idv != cfg.authorizedChatId.getD "")) = true := by
    rw [ha]
    simp [truthyEnv, hne, h5]
  unfold telegramWebhook
  simp only [h1, h2, h3, h4, hcond]
  simp

theorem c4_unauthorized_witness :
    telegramWebhook ⟨some "111", some "db"⟩
      (JValue.obj [("message", JValue.obj [("chat", JValue.obj [("id", JValue.num 222)]),
        ("text", JValue.str "hi")])])
      LLMOutcome.connError true "t0" = ⟨200, "unauthorized", [], [], []⟩ :=
  c4_unauthorized ⟨some "111", some "db"⟩
    (JValue.obj [("message", JValue.obj [("chat", JValue.obj [("id", JValue.num 222)]),
      ("text", JValue.str "hi")])])
    (JValue.obj [("chat", JValue.obj [("id", JValue.num 222)]), ("text", JValue.str "hi")])
    (JValue.obj [("id", JValue.num 222)]) (JValue.num 222)
    LLMOutcome.connError true "t0" "111" rfl (by decide) rfl rfl rfl rfl (by decide)

/-- C7 (counterexample): a command-text payload whose message carries no
`chat` key makes the handler raise (KeyError at `message['chat']`) before
the command check, so the transport gets a 500 "error" response, not a
neutral 2xx — though still with no classification call, no write and no
reply. -/
theorem c7_counterexample :
    (telegramWebhook ⟨none, some "db"⟩
      (JValue.obj [("message", JValue.obj [("text", JValue.str "/start")])])
      LLMOutcome.connError true "t0").httpStatus = 500 ∧
    (telegramWebhook ⟨none, some "db"⟩
      (JValue.obj [("message", JValue.obj [("text", JValue.str "/start")])])
      LLMOutcome.connError true "t0").bodyStatus = "error" ∧
    (telegramWebhook ⟨none, some "db"⟩
      (JValue.obj [("message", JValue.obj [("text", JValue.str "/start")])])
      LLMOutcome.connError true "t0").classifyCalls = [] ∧
    (telegramWebhook ⟨none, some "db"⟩
      (JValue.obj [("message", JValue.obj [("text", JValue.str "/start")])])
      LLMOutcome.connError true "t0").notionWrites = [] ∧
    (telegramWebhook ⟨none, some "db"⟩
      (JValue.obj [("message", JValue.obj [("text", JValue.str "/start")])])
      LLMOutcome.connError true "t0").sends = [] :=
  ⟨rfl, rfl, rfl, rfl, rfl⟩

/-- C7 (amended): payloads without a `message` key are acknowledged with
200 "ignored" and no effects; payloads whose message has a chat id but a
missing/empty text, or a text starting with "/", get a 2xx with no
classification call, no write and no reply (whatever the authorization
outcome); a message without a chat id raises instead (500), still with no
effects. -/
theorem c7_ignored_paths (cfg : Config) (payload : JValue) (llm : LLMOutcome)
    (nOk : Bool) (now : String) :
    (pyContains payload "message" = .ok false →
      telegramWebhook cfg payload llm nOk now = ⟨200, "ignored", [], [], []⟩) ∧
    (∀ message e, pyContains payload "message" = .ok true →
      pyIndexKey payload "message" = .ok message →
      pyIndexKey message "chat" = .error e →
      telegramWebhook cfg payload llm nOk now = ⟨500, "error", [], [], []⟩) ∧
    (∀ message chat idv textV,
      pyContains payload "message" = .ok true →
      pyIndexKey payload "message" = .ok message →
      pyIndexKey message "chat" = .ok chat →
      pyIndexKey chat "id" = .ok idv →
      pyDictGet message "text" (.str "") = .ok textV →
      (pyTruthy textV = false ∨ (∃ t, textV = JValue.str t ∧ pyStartsWith t "/" = true)) →
      (telegramWebhook cfg payload llm nOk now).httpStatus = 200 ∧
      (telegramWebhook cfg payload llm nOk now).classifyCalls = [] ∧
      (telegramWebhook cfg payload llm nOk now).notionWrites = [] ∧
      (telegramWebhook cfg payload llm nOk now).sends = []) := by
  refine ⟨?_, ?_, ?_⟩
  · intro h
    unfold telegramWebhook
    simp only [h]
  · intro message e h1 h2 h3
    unfold telegramWebhook
    simp only [h1, h2, h3]
  · intro message chat idv textV h1 h2 h3 h4 h5 h6
    unfold telegramWebhook
    simp only [h1, h2, h3, h4, h5]
    by_cases hauth : (truthyEnv cfg.authorizedChatId
        && (pyStr idv != cfg.authorizedChatId.getD "")) = true
    · simp only [hauth]
      simp
    · simp only [Bool.not_eq_true] at hauth
      simp only [hauth]
      cases h6 with
      | inl hfalse =>
        simp [hfalse]
      | inr hcmd =>
        obtain ⟨t, rfl, hst⟩ := hcmd
        by_cases htr : pyTruthy (JValue.str t) = false
        · simp [htr]
        · simp only [Bool.not_eq_false] at htr
          simp [htr, hst]

theorem c7_ignored_paths_witness :
    telegramWebhook ⟨none, some "db"⟩ (JValue.obj [("update_id", JValue.num 7)])
      LLMOutcome.connError true "t0" = ⟨200, "ignored", [], [], []⟩ ∧
    (telegramWebhook ⟨none, some "db"⟩
      (JValue.obj [("message", JValue.obj [("chat", JValue.obj [("id", JValue.num 5)]),
        ("text", JValue.str "/start")])])
      LLMOutcome.connError true "t0").httpStatus = 200 ∧
    (telegramWebhook ⟨none, some "db"⟩
      (JValue.obj [("message", JValue.obj [("chat", JValue.obj [("id", JValue.num 5)]),
        ("text", JValue.str "/start")])])
      LLMOutcome.connError true "t0").classifyCalls = [] ∧
    (telegramWebhook ⟨none, some "db"⟩
      (JValue.obj [("message", JValue.obj [("chat", JValue.obj [("id", JValue.num 5)]),
        ("text", JValue.str "/start")])])
      LLMOutcome.connError true "t0").notionWrites = [] ∧
    (telegramWebhook ⟨none, some "db"⟩
      (JValue.obj [("message", JValue.obj [("chat", JValue.obj [("id", JValue.num 5)]),
        ("text", JValue.str "/start")])])
      LLMOutcome.connError true "t0").sends = [] := by
  have hign := (c7_ignored_paths ⟨none, some "db"⟩ (JValue.obj [("update_id", JValue.num 7)])
    LLMOutcome.connError true "t0").1 rfl
  have hcmd := (c7_ignored_paths ⟨none, some "db"⟩
    (JValue.obj [("message", JValue.obj [("chat", JValue.obj [("id", JValue.num 5)]),
      ("text", JValue.str "/start")])])
    LLMOutcome.connError true "t0").2.2
    (JValue.obj [("chat", JValue.obj [("id", JValue.num 5)]), ("text", JValue.str "/start")])
    (JValue.obj [("id", JValue.num 5)]) (JValue.num 5) (JValue.str "/start")
    rfl rfl rfl rfl rfl (Or.inr ⟨"/start", rfl, rfl⟩)
  exact ⟨hign, hcmd.1, hcmd.2.1, hcmd.2.2.1, hcmd.2.2.2⟩

/-- C9: when AUTHORIZED_CHAT_ID is unset or empty the authorization check
is skipped: the "unauthorized" branch is unreachable, and the handler
behaves exactly as it does for a sender whose chat id equals the
configured one. -/
theorem c9_auth_skipped (cfg : Config) (payload : JValue) (llm : LLMOutcome)
    (nOk : Bool) (now : String) (hf : truthyEnv cfg.authorizedChatId = false) :
    (telegramWebhook cfg payload llm nOk now).bodyStatus ≠ "unauthorized" ∧
    (∀ message chat idv,
      pyIndexKey payload "message" = .ok message →
      pyIndexKey message "chat" = .ok chat →
      pyIndexKey chat "id" = .ok idv →
      pyStr idv ≠ "" →
      telegramWebhook cfg payload llm nOk now =
        telegramWebhook ⟨some (pyStr idv), cfg.notionDatabaseId⟩ payload llm nOk now) := by
  constructor
  · unfold telegramWebhook
    simp only [hf, Bool.false_and]
    repeat' split
    all_goals simp_all
  · intro message chat idv h1 h2 h3 hne
    have hc : pyContains payload "message" = .ok true :=
      pyIndexKey_contains payload "message" message h1
    unfold telegramWebhook
    simp only [hc, h1, h2, h3, hf, Bool.false_and]
    have hr : (truthyEnv (some (pyStr idv))
        && (pyStr idv != (some (pyStr idv)).getD "")) = false := by
      simp
    simp [hr]

theorem c9_auth_skipped_witness :
    (telegramWebhook ⟨none, some "db"⟩
      (JValue.obj [("message", JValue.obj [("chat", JValue.obj [("id", JValue.num 5)]),
        ("text", JValue.str "hi")])])
      LLMOutcome.connError true "t0").bodyStatus ≠ "unauthorized" ∧
    telegramWebhook ⟨none, some "db"⟩
      (JValue.obj [("message", JValue.obj [("chat", JValue.obj [("id", JValue.num 5)]),
        ("text", JValue.str "hi")])])
      LLMOutcome.connError true "t0" =
    telegramWebhook ⟨some "5", some "db"⟩
      (JValue.obj [("message", JValue.obj [("chat", JValue.obj [("id", JValue.num 5)]),
        ("text", JValue.str "hi")])])
      LLMOutcome.connError true "t0" :=
  ⟨(c9_auth_skipped ⟨none, some "db"⟩
      (JValue.obj [("message", JValue.obj [("chat", JValue.obj [("id", JValue.num 5)]),
        ("text", JValue.str "hi")])])
      LLMOutcome.connError true "t0" rfl).1,
   (c9_auth_skipped ⟨none, some "db"⟩
      (JValue.obj [("message", JValue.obj [("chat", JValue.obj [("id", JValue.num 5)]),
        ("text", JValue.str "hi")])])
      LLMOutcome.connError true "t0" rfl).2
     (JValue.obj [("chat", JValue.obj [("id", JValue.num 5)]), ("text", JValue.str "hi")])
     (JValue.obj [("id", JValue.num 5)]) (JValue.num 5)
     rfl rfl rfl (by decide)⟩
